import Mathlib

/-!
Shallow embedding of the rustflake identifier generator (src/lib.rs).

The Rust `Generator` holds a 6-byte seed and two `AtomicU64` cells
(`sequence`, `timestamp`).  `generate` reads the wall clock, ratchets the
timestamp watermark with `fetch_max`, packs timestamp / seed / sequence
into a 15-byte buffer, increments the sequence with `fetch_add`, and
base64-encodes the buffer with the URL_SAFE configuration.

Machine integers are modelled as `Nat` with explicit `% 2 ^ 64` (u64
casts) and `% 256` (u8 casts).  Sequential single-threaded executions are
modelled by explicit state passing (`stateAfter`, `outputAt`), the wall
clock being an arbitrary function from call index to milliseconds since
the UNIX epoch.  The one fallible step, `SystemTime::duration_since`
followed by `expect`, is modelled by `generate` returning an `Option`,
with `none` exactly when the clock is before the epoch.
-/

namespace Rustflake

/-- The URL-safe base64 alphabet of RFC 4648 §5 (`A-Z`, `a-z`, `0-9`,
`-`, `_`), used by the `base64` crate's `URL_SAFE` configuration that
`generate` selects. -/
def URL_SAFE_ALPHABET : List Char :=
  "ABCDEFGHIJKLMNOPQRSTUVWXYZabcdefghijklmnopqrstuvwxyz0123456789-_".toList

/-- The symbol for one 6-bit group.  In the crate every index is below
64 (bytes are `u8`); the out-of-range default is arbitrary and chosen as
the padding character. -/
def b64Char (i : Nat) : Char := URL_SAFE_ALPHABET.getD i '='

/-- base64 encoding of a byte sequence: 4 symbols per 3 bytes, `=`
padding for a trailing remainder, as performed by
`base64::encode_config(_, base64::URL_SAFE)` (padding enabled). -/
def encode_chars : List Nat → List Char
  | b0 :: b1 :: b2 :: rest =>
      b64Char (b0 / 4) :: b64Char (b0 % 4 * 16 + b1 / 16) ::
        b64Char (b1 % 16 * 4 + b2 / 64) :: b64Char (b2 % 64) :: encode_chars rest
  | [b0, b1] => [b64Char (b0 / 4), b64Char (b0 % 4 * 16 + b1 / 16), b64Char (b1 % 16 * 4), '=']
  | [b0] => [b64Char (b0 / 4), b64Char (b0 % 4 * 16), '=', '=']
  | [] => []

/-- `base64::encode_config` with `base64::URL_SAFE`, producing a string. -/
def encode_config (input : List Nat) : String := String.mk (encode_chars input)

/-- The Rust `Generator` struct: `seed: [u8; 6]`, `sequence: AtomicU64`,
`timestamp: AtomicU64`.  Bytes are `Nat`s below 256, the atomics `Nat`s
below `2 ^ 64`. -/
structure Generator where
  seed : List Nat
  sequence : Nat
  timestamp : Nat

/-- `Generator::with_seed`: both atomics start at 0, the seed is stored
verbatim. -/
def with_seed (seed : List Nat) : Generator :=
  { seed := seed, sequence := 0, timestamp := 0 }

/-- `Generator::new` delegates to `with_seed` on the 6-byte hardware
address returned by `get_non_loopback_address`.  That address is host
network state (the `interfaces` crate), so it is passed here as a
parameter. -/
def new (acquired_seed : List Nat) : Generator := with_seed acquired_seed

/-- `impl PartialEq for Generator`: seeds equal and currently loaded
sequence values equal; the timestamp watermark is not compared. -/
def Generator.eq (a b : Generator) : Bool :=
  a.seed == b.seed && a.sequence == b.sequence

/-- `put_uint`: for `i in 0..number_of_bytes`, write
`(long_value >> i * 8) as u8` at index `pos + number_of_bytes - i - 1`
(big-endian: most significant byte first). -/
def put_uint (byte_array : List Nat) (long_value : Nat) (pos number_of_bytes : Nat) :
    List Nat :=
  (List.range number_of_bytes).foldl
    (fun arr i => arr.set (pos + number_of_bytes - i - 1) (long_value >>> (i * 8) % 256))
    byte_array

/-- `copy_seed`: for `i in 0..seed_array.len()`, write `seed_array[i]`
at index `i + 6`. -/
def copy_seed (byte_array : List Nat) (seed_array : List Nat) : List Nat :=
  (List.range seed_array.length).foldl
    (fun arr i => arr.set (i + 6) (seed_array.getD i 0))
    byte_array

/-- The 15-byte buffer built inside `generate`: zero-initialised, then
`put_uint(max, 0, 6)`, `copy_seed(seed)`, `put_uint(sequence, 12, 3)`. -/
def flake_id (mx : Nat) (seed : List Nat) (sequence_value : Nat) : List Nat :=
  put_uint (copy_seed (put_uint (List.replicate 15 0) mx 0 6) seed) sequence_value 12 3

/-- One single-threaded `generate` call on state `g`, where `now_ms` is
the wall clock in milliseconds since the epoch (`as_millis() as u64` is
the `% 2 ^ 64` cast).  `previous_value` is the watermark before
`fetch_max`; the captured sequence is the value before `fetch_add(1)`.
Returns the encoded identifier and the updated generator state. -/
def genStep (g : Generator) (now_ms : Nat) : String × Generator :=
  let since_epoch_in_ms := now_ms % 2 ^ 64
  let previous_value := g.timestamp
  let mx := max previous_value since_epoch_in_ms
  (encode_config (flake_id mx g.seed g.sequence),
   { seed := g.seed
     sequence := (g.sequence + 1) % 2 ^ 64
     timestamp := max g.timestamp since_epoch_in_ms })

/-- `generate` including the clock acquisition: `now` is the wall clock
in milliseconds relative to the UNIX epoch (negative = before it).
`duration_since(UNIX_EPOCH)` errs exactly when the clock is before the
epoch, and the `expect` call turns that into a panic, modelled as
`none`; otherwise every step is total. -/
def generate (g : Generator) (now : Int) : Option (String × Generator) :=
  if now < 0 then none else some (genStep g now.toNat)

/-- Generator state after `n` sequential `generate` calls starting from
`g`; `clocks k` is the wall clock (ms since the epoch, at or after it)
observed by call `k`. -/
def stateAfter (g : Generator) (clocks : Nat → Nat) : Nat → Generator
  | 0 => g
  | n + 1 => (genStep (stateAfter g clocks n) (clocks n)).2

/-- The identifier string returned by call `n` (0-indexed). -/
def outputAt (g : Generator) (clocks : Nat → Nat) (n : Nat) : String :=
  (genStep (stateAfter g clocks n) (clocks n)).1

/-- The effective (reconciled) timestamp embedded by call `n`. -/
def effTime (g : Generator) (clocks : Nat → Nat) (n : Nat) : Nat :=
  max (stateAfter g clocks n).timestamp (clocks n % 2 ^ 64)

/-- Big-endian byte list of the low `8 * n` bits of `v`. -/
def be_bytes (v : Nat) : Nat → List Nat
  | 0 => []
  | n + 1 => v >>> (n * 8) % 256 :: be_bytes v n

/-- Lexical (strict) string order: Rust compares `String`s by their
byte sequences; on the ASCII output of the encoder this is exactly
lexicographic order of the character lists by code point. -/
def strLt (a b : String) : Prop := List.Lex (· < ·) a.data b.data

/-- Non-strict lexical string order. -/
def strLe (a b : String) : Prop := strLt a b ∨ a = b

instance (a b : String) : Decidable (strLt a b) :=
  inferInstanceAs (Decidable (List.Lex (· < ·) a.data b.data))

instance (a b : String) : Decidable (strLe a b) :=
  inferInstanceAs (Decidable (strLt a b ∨ a = b))

theorem flake_id_eq (t s s0 s1 s2 s3 s4 s5 : Nat) :
    flake_id t [s0, s1, s2, s3, s4, s5] s =
      [t >>> 40 % 256, t >>> 32 % 256, t >>> 24 % 256, t >>> 16 % 256,
       t >>> 8 % 256, t % 256, s0, s1, s2, s3, s4, s5,
       s >>> 16 % 256, s >>> 8 % 256, s % 256] := rfl

theorem b64Char_inj : ∀ i, i < 64 → ∀ j, j < 64 → b64Char i = b64Char j → i = j := by
  decide

theorem b64Char_ne_pad : ∀ i, i < 64 → b64Char i ≠ '=' := by
  decide

theorem stateAfter_seed (g : Generator) (clocks : Nat → Nat) (n : Nat) :
    (stateAfter g clocks n).seed = g.seed := by
  induction n with
  | zero => rfl
  | succ n ih => simpa [stateAfter, genStep] using ih

theorem stateAfter_sequence (s : List Nat) (clocks : Nat → Nat) (n : Nat) :
    (stateAfter (with_seed s) clocks n).sequence = n % 2 ^ 64 := by
  induction n with
  | zero => rfl
  | succ n ih =>
      have : (stateAfter (with_seed s) clocks (n + 1)).sequence
          = ((stateAfter (with_seed s) clocks n).sequence + 1) % 2 ^ 64 := rfl
      rw [this, ih]
      omega

theorem stateAfter_timestamp_succ (g : Generator) (clocks : Nat → Nat) (n : Nat) :
    (stateAfter g clocks (n + 1)).timestamp
      = max (stateAfter g clocks n).timestamp (clocks n % 2 ^ 64) := rfl

theorem stateAfter_timestamp_mono (g : Generator) (clocks : Nat → Nat) {m n : Nat}
    (h : m ≤ n) :
    (stateAfter g clocks m).timestamp ≤ (stateAfter g clocks n).timestamp := by
  induction n with
  | zero => simp_all
  | succ n ih =>
      rcases Nat.lt_succ_iff_lt_or_eq.mp (Nat.lt_succ_of_le h) with h2 | h2
      · exact le_trans (ih (Nat.lt_succ_iff.mp h2))
          (by rw [stateAfter_timestamp_succ]; exact le_max_left _ _)
      · exact le_of_eq (by rw [h2])

theorem effTime_eq (g : Generator) (clocks : Nat → Nat) (n : Nat) :
    effTime g clocks n = (stateAfter g clocks (n + 1)).timestamp := rfl

theorem effTime_mono (g : Generator) (clocks : Nat → Nat) {m n : Nat} (h : m ≤ n) :
    effTime g clocks m ≤ effTime g clocks n := by
  rcases Nat.eq_or_lt_of_le h with h2 | h2
  · exact le_of_eq (by rw [h2])
  · rw [effTime_eq]
    exact le_trans (stateAfter_timestamp_mono g clocks h2) (le_max_left _ _)

theorem stateAfter_timestamp_zero (s : List Nat) (n : Nat) :
    (stateAfter (with_seed s) (fun _ => 0) n).timestamp = 0 := by
  induction n with
  | zero => rfl
  | succ n ih => simp [stateAfter_timestamp_succ, ih]

theorem outputAt_eq (g : Generator) (clocks : Nat → Nat) (n : Nat) :
    outputAt g clocks n
      = encode_config (flake_id (effTime g clocks n) (stateAfter g clocks n).seed
          (stateAfter g clocks n).sequence) := rfl

theorem stateAfter_with_seed_seed (s : List Nat) (clocks : Nat → Nat) (n : Nat) :
    (stateAfter (with_seed s) clocks n).seed = s := stateAfter_seed _ _ _

theorem encode_config_data (l : List Nat) : (encode_config l).data = encode_chars l := rfl

theorem encode_chars_eq (x0 x1 x2 x3 x4 x5 x6 x7 x8 x9 x10 x11 x12 x13 x14 : Nat) :
    encode_chars [x0, x1, x2, x3, x4, x5, x6, x7, x8, x9, x10, x11, x12, x13, x14]
      = [b64Char (x0 / 4), b64Char (x0 % 4 * 16 + x1 / 16),
         b64Char (x1 % 16 * 4 + x2 / 64), b64Char (x2 % 64),
         b64Char (x3 / 4), b64Char (x3 % 4 * 16 + x4 / 16),
         b64Char (x4 % 16 * 4 + x5 / 64), b64Char (x5 % 64),
         b64Char (x6 / 4), b64Char (x6 % 4 * 16 + x7 / 16),
         b64Char (x7 % 16 * 4 + x8 / 64), b64Char (x8 % 64),
         b64Char (x9 / 4), b64Char (x9 % 4 * 16 + x10 / 16),
         b64Char (x10 % 16 * 4 + x11 / 64), b64Char (x11 % 64),
         b64Char (x12 / 4), b64Char (x12 % 4 * 16 + x13 / 16),
         b64Char (x13 % 16 * 4 + x14 / 64), b64Char (x14 % 64)] := rfl

/-- C4: the 15-byte buffer built by every `generate` call consists of the
big-endian low 48 bits of the reconciled effective timestamp (bytes
0-5), the 6 seed bytes verbatim (bytes 6-11), and the big-endian low 24
bits of the captured pre-increment sequence value (bytes 12-14);
truncation is silent, and the buffer is exactly what `genStep` encodes. -/
theorem c4_buffer_layout (t s ts now s0 s1 s2 s3 s4 s5 : Nat) :
    flake_id t [s0, s1, s2, s3, s4, s5] s
        = be_bytes (t % 2 ^ 48) 6 ++ [s0, s1, s2, s3, s4, s5] ++ be_bytes (s % 2 ^ 24) 3
    ∧ (genStep ⟨[s0, s1, s2, s3, s4, s5], s, ts⟩ now).1
        = encode_config (flake_id (max ts (now % 2 ^ 64)) [s0, s1, s2, s3, s4, s5] s) := by
  constructor
  · have h6 : be_bytes (t % 2 ^ 48) 6
        = [(t % 2 ^ 48) >>> 40 % 256, (t % 2 ^ 48) >>> 32 % 256, (t % 2 ^ 48) >>> 24 % 256,
           (t % 2 ^ 48) >>> 16 % 256, (t % 2 ^ 48) >>> 8 % 256, (t % 2 ^ 48) % 256] := rfl
    have h3 : be_bytes (s % 2 ^ 24) 3
        = [(s % 2 ^ 24) >>> 16 % 256, (s % 2 ^ 24) >>> 8 % 256, (s % 2 ^ 24) % 256] := rfl
    rw [flake_id_eq, h6, h3]
    simp only [List.cons_append, List.nil_append, List.cons.injEq, Nat.shiftRight_eq_div_pow]
    refine ⟨?_, ?_, ?_, ?_, ?_, ?_, ?_, ?_, ?_, ?_, ?_, ?_, ?_, ?_, ?_, ?_⟩ <;>
      first | trivial | omega
  · rfl

/-- C5: the timestamp watermark is a monotone ratchet.  Each call sets
the watermark to the maximum of its prior value and the observed clock,
embeds `effective_time = max(previous, now_ms)`, the watermark never
decreases across calls, and the embedded effective timestamp never
regresses relative to any earlier call, whatever the clock does. -/
theorem c5_watermark_ratchet (g : Generator) (clocks : Nat → Nat) (k m n : Nat)
    (h : m ≤ n) :
    (stateAfter g clocks (k + 1)).timestamp
        = max (stateAfter g clocks k).timestamp (clocks k % 2 ^ 64)
    ∧ (genStep (stateAfter g clocks k) (clocks k)).1
        = encode_config (flake_id (max (stateAfter g clocks k).timestamp (clocks k % 2 ^ 64))
            (stateAfter g clocks k).seed (stateAfter g clocks k).sequence)
    ∧ (stateAfter g clocks m).timestamp ≤ (stateAfter g clocks n).timestamp
    ∧ effTime g clocks m ≤ effTime g clocks n :=
  ⟨rfl, rfl, stateAfter_timestamp_mono g clocks h, effTime_mono g clocks h⟩

/-- Witness for C5 at a concrete generator, clock and pair of calls. -/
theorem c5_watermark_ratchet_witness :
    (0 : Nat) ≤ 1
    ∧ ((stateAfter (with_seed [0, 0, 0, 0, 0, 0]) (fun _ => 7) (0 + 1)).timestamp
          = max (stateAfter (with_seed [0, 0, 0, 0, 0, 0]) (fun _ => 7) 0).timestamp
              (7 % 2 ^ 64)
        ∧ (genStep (stateAfter (with_seed [0, 0, 0, 0, 0, 0]) (fun _ => 7) 0) 7).1
          = encode_config
              (flake_id
                (max (stateAfter (with_seed [0, 0, 0, 0, 0, 0]) (fun _ => 7) 0).timestamp
                  (7 % 2 ^ 64))
                (stateAfter (with_seed [0, 0, 0, 0, 0, 0]) (fun _ => 7) 0).seed
                (stateAfter (with_seed [0, 0, 0, 0, 0, 0]) (fun _ => 7) 0).sequence)
        ∧ (stateAfter (with_seed [0, 0, 0, 0, 0, 0]) (fun _ => 7) 0).timestamp
          ≤ (stateAfter (with_seed [0, 0, 0, 0, 0, 0]) (fun _ => 7) 1).timestamp
        ∧ effTime (with_seed [0, 0, 0, 0, 0, 0]) (fun _ => 7) 0
          ≤ effTime (with_seed [0, 0, 0, 0, 0, 0]) (fun _ => 7) 1) :=
  ⟨Nat.zero_le 1,
   c5_watermark_ratchet (with_seed [0, 0, 0, 0, 0, 0]) (fun _ => 7) 0 0 1 (Nat.zero_le 1)⟩

/-- C6 (amended): every call advances the sequence counter by exactly
one as a wrapping unsigned 64-bit value and embeds the pre-increment
value; from a fresh generator, call `n` (0-indexed) captures counter
value `n` while fewer than `2 ^ 64` calls have been made, embeds its low
24 bits big-endian in bytes 12-14, and the counter never decreases
within the first `2 ^ 64` calls (it wraps to 0 only at call `2 ^ 64`). -/
theorem c6_sequence_counter (s0 s1 s2 s3 s4 s5 : Nat) (clocks : Nat → Nat) (m n : Nat)
    (hmn : m ≤ n) (hn : n < 2 ^ 64) :
    (stateAfter (with_seed [s0, s1, s2, s3, s4, s5]) clocks (n + 1)).sequence
        = ((stateAfter (with_seed [s0, s1, s2, s3, s4, s5]) clocks n).sequence + 1) % 2 ^ 64
    ∧ (stateAfter (with_seed [s0, s1, s2, s3, s4, s5]) clocks n).sequence = n
    ∧ (stateAfter (with_seed [s0, s1, s2, s3, s4, s5]) clocks m).sequence
        ≤ (stateAfter (with_seed [s0, s1, s2, s3, s4, s5]) clocks n).sequence
    ∧ (flake_id (effTime (with_seed [s0, s1, s2, s3, s4, s5]) clocks n)
          [s0, s1, s2, s3, s4, s5]
          (stateAfter (with_seed [s0, s1, s2, s3, s4, s5]) clocks n).sequence).drop 12
        = be_bytes (n % 2 ^ 24) 3 := by
  refine ⟨rfl, ?_, ?_, ?_⟩
  · rw [stateAfter_sequence]
    omega
  · rw [stateAfter_sequence, stateAfter_sequence]
    omega
  · rw [stateAfter_sequence, flake_id_eq]
    have h3 : be_bytes (n % 2 ^ 24) 3
        = [(n % 2 ^ 24) >>> 16 % 256, (n % 2 ^ 24) >>> 8 % 256, (n % 2 ^ 24) % 256] := rfl
    have hdrop : ∀ (a0 a1 a2 a3 a4 a5 a6 a7 a8 a9 a10 a11 b0 b1 b2 : Nat),
        List.drop 12 [a0, a1, a2, a3, a4, a5, a6, a7, a8, a9, a10, a11, b0, b1, b2]
          = [b0, b1, b2] := fun _ _ _ _ _ _ _ _ _ _ _ _ _ _ _ => rfl
    rw [h3, hdrop]
    simp only [List.cons.injEq, Nat.shiftRight_eq_div_pow]
    refine ⟨?_, ?_, ?_, ?_⟩ <;> first | trivial | omega

/-- Witness for C6's amended statement at a concrete pair of calls. -/
theorem c6_sequence_counter_witness :
    (0 : Nat) ≤ 1 ∧ (1 : Nat) < 2 ^ 64
    ∧ ((stateAfter (with_seed [0, 0, 0, 0, 0, 0]) (fun _ => 0) (1 + 1)).sequence
          = ((stateAfter (with_seed [0, 0, 0, 0, 0, 0]) (fun _ => 0) 1).sequence + 1) % 2 ^ 64
        ∧ (stateAfter (with_seed [0, 0, 0, 0, 0, 0]) (fun _ => 0) 1).sequence = 1
        ∧ (stateAfter (with_seed [0, 0, 0, 0, 0, 0]) (fun _ => 0) 0).sequence
          ≤ (stateAfter (with_seed [0, 0, 0, 0, 0, 0]) (fun _ => 0) 1).sequence
        ∧ (flake_id (effTime (with_seed [0, 0, 0, 0, 0, 0]) (fun _ => 0) 1)
              [0, 0, 0, 0, 0, 0]
              (stateAfter (with_seed [0, 0, 0, 0, 0, 0]) (fun _ => 0) 1).sequence).drop 12
          = be_bytes (1 % 2 ^ 24) 3) :=
  ⟨Nat.zero_le 1, by norm_num,
   c6_sequence_counter 0 0 0 0 0 0 (fun _ => 0) 0 1 (Nat.zero_le 1) (by norm_num)⟩

/-- C6 counterexample to the unrestricted claim: the u64 counter wraps,
so after `2 ^ 64` calls it has decreased (reset to 0) relative to the
state after `2 ^ 64 - 1` calls. -/
theorem c6_counterexample_wrap :
    (stateAfter (with_seed [0, 0, 0, 0, 0, 0]) (fun _ => 0) (2 ^ 64 - 1)).sequence
        = 2 ^ 64 - 1
    ∧ (stateAfter (with_seed [0, 0, 0, 0, 0, 0]) (fun _ => 0) (2 ^ 64)).sequence = 0
    ∧ ¬ ((stateAfter (with_seed [0, 0, 0, 0, 0, 0]) (fun _ => 0) (2 ^ 64 - 1)).sequence
          ≤ (stateAfter (with_seed [0, 0, 0, 0, 0, 0]) (fun _ => 0) (2 ^ 64)).sequence) := by
  simp only [stateAfter_sequence]
  omega

/-- C7: `generate` fails (the `expect` panics) exactly when the host
clock is before the UNIX epoch; at or after the epoch it always returns
an identifier, with no other failure path. -/
theorem c7_fail_iff_before_epoch (g : Generator) (now : Int) :
    (generate g now = none ↔ now < 0)
    ∧ (0 ≤ now → generate g now = some (genStep g now.toNat)) := by
  by_cases h : now < 0
  · refine ⟨by simp [generate, h], fun h2 => (not_lt.mpr h2 h).elim⟩
  · refine ⟨by simp [generate, h], fun h2 => by simp [generate, h]⟩

/-- Witness for C7: a clock one millisecond before the epoch panics, a
clock at the epoch succeeds. -/
theorem c7_fail_iff_before_epoch_witness :
    generate (with_seed [0, 0, 0, 0, 0, 0]) (-1) = none
    ∧ generate (with_seed [0, 0, 0, 0, 0, 0]) 0
        = some (genStep (with_seed [0, 0, 0, 0, 0, 0]) ((0 : Int).toNat)) :=
  ⟨(c7_fail_iff_before_epoch (with_seed [0, 0, 0, 0, 0, 0]) (-1)).1.mpr (by norm_num),
   (c7_fail_iff_before_epoch (with_seed [0, 0, 0, 0, 0, 0]) 0).2 (by norm_num)⟩

/-- C8: both construction paths initialise the watermark and the
sequence counter to 0 and store the (supplied or acquired) seed
verbatim; `new` merely delegates to `with_seed`, and `generate` never
changes the seed. -/
theorem c8_construction_init (s : List Nat) (g : Generator) (now_ms : Nat) :
    (with_seed s).seed = s ∧ (with_seed s).sequence = 0 ∧ (with_seed s).timestamp = 0
    ∧ new s = with_seed s ∧ (genStep g now_ms).2.seed = g.seed :=
  ⟨rfl, rfl, rfl, rfl, rfl⟩

/-- C1: the claimed order preservation of the URL_SAFE base64 encoding
fails.  The byte sequences `[0,0,51]` and `[0,0,52]` of equal length are
byte-wise ordered, yet their encodings `"AAAz"` and `"AAA0"` compare the
other way around lexically, because the URL_SAFE alphabet is not in
ascending code-point order (`z` is symbol 51, `0` is symbol 52). -/
theorem c1_encoding_order_violation :
    List.Lex (· < ·) ([0, 0, 51] : List Nat) [0, 0, 52]
    ∧ encode_config [0, 0, 51] = "AAAz"
    ∧ encode_config [0, 0, 52] = "AAA0"
    ∧ ¬ strLe (encode_config [0, 0, 51]) (encode_config [0, 0, 52])
    ∧ strLt (encode_config [0, 0, 52]) (encode_config [0, 0, 51]) := by decide

set_option maxRecDepth 10000 in
/-- C2: sequential calls are not always lexically increasing.  From a
fresh all-zero-seed generator with the clock pinned to one millisecond
value, call 52 (sequence value 51) returns a string ending in `z` and
call 53 (sequence value 52) returns a smaller string ending in `0`. -/
theorem c2_sequential_not_monotone :
    outputAt (with_seed [0, 0, 0, 0, 0, 0]) (fun _ => 0) 51 = "AAAAAAAAAAAAAAAAAAAz"
    ∧ outputAt (with_seed [0, 0, 0, 0, 0, 0]) (fun _ => 0) 52 = "AAAAAAAAAAAAAAAAAAA0"
    ∧ ¬ strLt (outputAt (with_seed [0, 0, 0, 0, 0, 0]) (fun _ => 0) 51)
        (outputAt (with_seed [0, 0, 0, 0, 0, 0]) (fun _ => 0) 52)
    ∧ strLt (outputAt (with_seed [0, 0, 0, 0, 0, 0]) (fun _ => 0) 52)
        (outputAt (with_seed [0, 0, 0, 0, 0, 0]) (fun _ => 0) 51) := by decide

/-- C3 (amended): identifiers of distinct calls among the first `2 ^ 24`
calls of a fresh generator are pairwise distinct, for every seed and
every clock behaviour; in particular any 100,000 sequential calls yield
pairwise distinct strings. -/
theorem c3_unique_below_wrap (s0 s1 s2 s3 s4 s5 : Nat) (clocks : Nat → Nat) (i j : Nat)
    (hi : i < 2 ^ 24) (hj : j < 2 ^ 24) (hij : i ≠ j) :
    outputAt (with_seed [s0, s1, s2, s3, s4, s5]) clocks i
      ≠ outputAt (with_seed [s0, s1, s2, s3, s4, s5]) clocks j := by
  intro heq
  rw [outputAt_eq, outputAt_eq, stateAfter_with_seed_seed, stateAfter_with_seed_seed,
    stateAfter_sequence, stateAfter_sequence,
    Nat.mod_eq_of_lt (lt_trans hi (by norm_num : (2 : Nat) ^ 24 < 2 ^ 64)),
    Nat.mod_eq_of_lt (lt_trans hj (by norm_num : (2 : Nat) ^ 24 < 2 ^ 64)),
    flake_id_eq, flake_id_eq] at heq
  have heq2 := congrArg String.data heq
  rw [encode_config_data, encode_config_data, encode_chars_eq, encode_chars_eq] at heq2
  simp only [List.cons.injEq] at heq2
  obtain ⟨-, -, -, -, -, -, -, -, -, -, -, -, -, -, -, -, h16, h17, h18, h19, -⟩ := heq2
  simp only [Nat.shiftRight_eq_div_pow] at h16 h17 h18
  have e16 := b64Char_inj _ (by omega) _ (by omega) h16
  have e17 := b64Char_inj _ (by omega) _ (by omega) h17
  have e18 := b64Char_inj _ (by omega) _ (by omega) h18
  have e19 := b64Char_inj _ (by omega) _ (by omega) h19
  omega

/-- Witness for C3's amended statement at two concrete calls. -/
theorem c3_unique_below_wrap_witness :
    (0 : Nat) < 2 ^ 24 ∧ (1 : Nat) < 2 ^ 24 ∧ (0 : Nat) ≠ 1
    ∧ outputAt (with_seed [0, 0, 0, 0, 0, 0]) (fun _ => 0) 0
        ≠ outputAt (with_seed [0, 0, 0, 0, 0, 0]) (fun _ => 0) 1 :=
  ⟨by norm_num, by norm_num, by norm_num,
   c3_unique_below_wrap 0 0 0 0 0 0 (fun _ => 0) 0 1 (by norm_num) (by norm_num)
     (by norm_num)⟩

/-- C3 counterexample to the unrestricted claim: with all calls in the
same millisecond, call 0 and call `2 ^ 24` embed the same truncated
sequence value and return the same identifier string. -/
theorem c3_counterexample_wraparound :
    outputAt (with_seed [0, 0, 0, 0, 0, 0]) (fun _ => 0) 0
      = outputAt (with_seed [0, 0, 0, 0, 0, 0]) (fun _ => 0) (2 ^ 24) := by
  rw [outputAt_eq, outputAt_eq, stateAfter_with_seed_seed, stateAfter_with_seed_seed,
    stateAfter_sequence, stateAfter_sequence]
  have h0 : effTime (with_seed [0, 0, 0, 0, 0, 0]) (fun _ => 0) 0 = 0 := by
    simp [effTime, stateAfter_timestamp_zero]
  have h1 : effTime (with_seed [0, 0, 0, 0, 0, 0]) (fun _ => 0) (2 ^ 24) = 0 := by
    simp [effTime, stateAfter_timestamp_zero]
  rw [h0, h1]
  decide

/-- C10: every identifier is exactly 20 characters and contains no `=`
padding, because the 15-byte buffer length is divisible by 3. -/
theorem c10_twenty_chars_no_padding (s0 s1 s2 s3 s4 s5 seq ts now : Nat)
    (hb0 : s0 < 256) (hb1 : s1 < 256) (hb2 : s2 < 256) (hb3 : s3 < 256)
    (hb4 : s4 < 256) (hb5 : s5 < 256) :
    ((genStep ⟨[s0, s1, s2, s3, s4, s5], seq, ts⟩ now).1).length = 20
    ∧ '=' ∉ ((genStep ⟨[s0, s1, s2, s3, s4, s5], seq, ts⟩ now).1).data := by
  have hfst : (genStep (⟨[s0, s1, s2, s3, s4, s5], seq, ts⟩ : Generator) now).1
      = encode_config (flake_id (max ts (now % 2 ^ 64)) [s0, s1, s2, s3, s4, s5] seq) :=
    rfl
  rw [hfst, flake_id_eq]
  constructor
  · rfl
  · rw [encode_config_data, encode_chars_eq]
    intro hmem
    simp only [List.mem_cons, List.not_mem_nil, or_false] at hmem
    rcases hmem with h|h|h|h|h|h|h|h|h|h|h|h|h|h|h|h|h|h|h|h <;>
      exact b64Char_ne_pad _ (by omega) h.symm

/-- Witness for C10 at a concrete seed, state and clock. -/
theorem c10_twenty_chars_no_padding_witness :
    (0 : Nat) < 256
    ∧ ((genStep ⟨[0, 0, 0, 0, 0, 0], 0, 0⟩ 0).1).length = 20
    ∧ '=' ∉ ((genStep ⟨[0, 0, 0, 0, 0, 0], 0, 0⟩ 0).1).data :=
  ⟨by norm_num,
   (c10_twenty_chars_no_padding 0 0 0 0 0 0 0 0 0 (by norm_num) (by norm_num) (by norm_num)
     (by norm_num) (by norm_num) (by norm_num)).1,
   (c10_twenty_chars_no_padding 0 0 0 0 0 0 0 0 0 (by norm_num) (by norm_num) (by norm_num)
     (by norm_num) (by norm_num) (by norm_num)).2⟩

/-- C9: `PartialEq` on `Generator` holds exactly when the seeds and the
current sequence counter values agree; the timestamp watermark is
ignored, so generators differing only in watermark compare equal. -/
theorem c9_generator_eq (a b : Generator) (s : List Nat) (q t1 t2 : Nat) :
    (Generator.eq a b = true ↔ a.seed = b.seed ∧ a.sequence = b.sequence)
    ∧ Generator.eq ⟨s, q, t1⟩ ⟨s, q, t2⟩ = true := by
  constructor
  · simp [Generator.eq]
  · simp [Generator.eq]

end Rustflake
